import Mathlib

/-!
Shallow embedding of the real-estate valuation core:
* `excelModel.js` (src/unnamed/part_000): `pmt`, `afaRate`, `simulateExcelModel`
* `app.js`: the simplified `runSimulation` year loop (tax computation slice)

JavaScript numbers are modelled as exact rationals (`ℚ`); the `?? / != null`
optional-value idioms as `Option`; the JS object `loanSchedule` (each key
written exactly once by the three loops) as a function `ℕ → Option LoanYearEntry`;
`Math.pow` with a natural exponent as monoid `^`, with a (negative) integer
exponent as `zpow`, and the one real-exponent use (`Math.pow(x, 1/years)` in the
KPI block) over `ℝ` via `Real.rpow`.  The JS `NaN` returned for the annualized
ROE is modelled as `none`.
-/

/-- Input record of `simulateExcelModel` (the destructured `params` object).
All numeric fields are rationals; `loanTermYears`, `fixRateYears` and
`buildingLifetimeYears` are year counts, modelled as naturals.
`interestRate2` is optional (`interestRate2 != null ? interestRate2 : r1`). -/
structure Params where
  startYear : ℚ
  buildingValue : ℚ
  landValue : ℚ
  grEStRate : ℚ
  maklerRate : ℚ
  grundbuchRate : ℚ
  notaryRate : ℚ
  companyCost : ℚ
  fittingUp : ℚ
  initialRepairs : ℚ
  buildingLossRate : ℚ
  landGrowthRate : ℚ
  constructionCostGrowth : ℚ
  annualMaintenance : ℚ
  maintenanceGrowth : ℚ
  monthlyRent : ℚ
  vacancyRate : ℚ
  rentGrowth : ℚ
  taxRate : ℚ
  equity : ℚ
  loanTermYears : ℕ
  fixRateYears : ℕ
  discountRate : ℚ
  interestRate1 : ℚ
  interestRate2 : Option ℚ
  afaArt : String
  buildingLifetimeYears : ℕ := 50

/-- `pmt(rate, nper, pv)`: Excel-like annuity payment.
`if (Math.abs(rate) < 1e-9) return -(pv / nper); return -(pv * rate) / (1 - Math.pow(1 + rate, -nper));` -/
def pmt (rate : ℚ) (nper : ℕ) (pv : ℚ) : ℚ :=
  if |rate| < 1e-9 then -(pv / nper)
  else -(pv * rate) / (1 - (1 + rate) ^ (-(nper : ℤ)))

/-- `listStarts s t`: does list `t` occur at the head of `s`?  Building block
for the JS `String.prototype.includes` used in `afaRate`'s fallback. -/
def listStarts : List Char → List Char → Bool
  | _, [] => true
  | [], _ :: _ => false
  | a :: as, b :: bs => a == b && listStarts as bs

/-- `listHas s t`: does `t` occur contiguously anywhere inside `s`? -/
def listHas : List Char → List Char → Bool
  | [], t => t.isEmpty
  | a :: as, t => listStarts (a :: as) t || listHas as t

/-- `s.includes(sub)` of JavaScript: `sub` is a substring of `s`. -/
def strIncludes (s sub : String) : Bool :=
  listHas s.toList sub.toList

/-- `afaRate(afaArt, year, lifetimeYears = 50)`: depreciation rate per year.
The JS `switch` on the scheme string, the `"Linear x%"` remaining-lifetime
case (`1.0 / lifetimeYears`) and the fallback substring heuristic
(`afaArt && afaArt.includes("3") → 0.03`, `"2" → 0.02`, default `0.02`;
a falsy — empty — string skips the `includes` tests). -/
def afaRate (afaArt : String) (year : ℕ) (lifetimeYears : ℕ := 50) : ℚ :=
  if afaArt = "Degressiv 5% + Linear 3%" then (if year ≤ 6 then 0.05 else 0.03)
  else if afaArt = "Degressiv 5% + Linear 2%" then (if year ≤ 6 then 0.05 else 0.02)
  else if afaArt = "Linear 3 % p.a." ∨ afaArt = "Linear 3%" then
    (if year ≤ 33 then 0.03 else 0)
  else if afaArt = "Linear 2 % p.a." ∨ afaArt = "Linear 2%" then
    (if year ≤ 50 then 0.02 else 0)
  else if afaArt = "Linear x%" then
    (if year ≤ lifetimeYears then 1 / (lifetimeYears : ℚ) else 0)
  else if afaArt ≠ "" ∧ strIncludes afaArt "3" = true then 0.03
  else if afaArt ≠ "" ∧ strIncludes afaArt "2" = true then 0.02
  else 0.02

/-- The recognized scheme identifiers of `afaRate`'s `switch`; any other string
hits the `default` fallback. -/
def recognizedSchemes : List String :=
  ["Degressiv 5% + Linear 3%", "Degressiv 5% + Linear 2%",
   "Linear 3 % p.a.", "Linear 3%", "Linear 2 % p.a.", "Linear 2%", "Linear x%"]

/-- `options.horizonYears ?? loanTermYears` (line 88). -/
def horizonOf (p : Params) (options : Option ℕ) : ℕ :=
  options.getD p.loanTermYears

/-- `purchasePrice = (buildingValue || 0) + (landValue || 0)` — the `|| 0`
guards are identities here since every field is a present rational. -/
def purchasePrice (p : Params) : ℚ := p.buildingValue + p.landValue

/-- `sideCostRate = grEStRate + maklerRate + grundbuchRate + notaryRate`. -/
def sideCostRate (p : Params) : ℚ :=
  p.grEStRate + p.maklerRate + p.grundbuchRate + p.notaryRate

/-- `sideCostsVar = purchasePrice * sideCostRate`. -/
def sideCostsVar (p : Params) : ℚ := purchasePrice p * sideCostRate p

/-- `sideCostsTotal = sideCostsVar + companyCost`. -/
def sideCostsTotal (p : Params) : ℚ := sideCostsVar p + p.companyCost

/-- `totalInvest = purchasePrice + fittingUp + initialRepairs + sideCostsTotal`. -/
def totalInvest (p : Params) : ℚ :=
  purchasePrice p + p.fittingUp + p.initialRepairs + sideCostsTotal p

/-- `finanzbedarf = totalInvest - equity`. -/
def finanzbedarf (p : Params) : ℚ := totalInvest p - p.equity

/-- `auszahlungsKurs = 1 - discountRate`. -/
def auszahlungsKurs (p : Params) : ℚ := 1 - p.discountRate

/-- `auszahlung = |auszahlungsKurs| > 1e-12 ? finanzbedarf / auszahlungsKurs : finanzbedarf`. -/
def auszahlung (p : Params) : ℚ :=
  if |auszahlungsKurs p| > 1e-12 then finanzbedarf p / auszahlungsKurs p
  else finanzbedarf p

/-- `disagio = auszahlung - finanzbedarf`. -/
def disagio (p : Params) : ℚ := auszahlung p - finanzbedarf p

/-- `buildingShare = purchasePrice > 0 ? buildingValue / purchasePrice : 0`. -/
def buildingShare (p : Params) : ℚ :=
  if purchasePrice p > 0 then p.buildingValue / purchasePrice p else 0

/-- `afaBasis = buildingValue + fittingUp + sideCostsVar * buildingShare`. -/
def afaBasis (p : Params) : ℚ :=
  p.buildingValue + p.fittingUp + sideCostsVar p * buildingShare p

/-- `loanYears = loanTermYears`. -/
def loanYears (p : Params) : ℕ := p.loanTermYears

/-- `firstPhaseYears = Math.min(fixRateYears, loanYears)`. -/
def firstPhaseYears (p : Params) : ℕ := min p.fixRateYears (loanYears p)

/-- `r2 = interestRate2 != null ? interestRate2 : r1`. -/
def r2 (p : Params) : ℚ := p.interestRate2.getD p.interestRate1

/-- `annuity1 = pmt(r1, loanYears, auszahlung)`. -/
def annuity1 (p : Params) : ℚ := pmt p.interestRate1 (loanYears p) (auszahlung p)

/-- The mutable `remaining` after `y` iterations of the phase-1 loop
(`remaining += principalPaid` with `principalPaid = annuity1 - (-restStart*r1)`),
starting from `remaining = auszahlung`. -/
def remaining1 (p : Params) : ℕ → ℚ
  | 0 => auszahlung p
  | y + 1 => remaining1 p y + (annuity1 p + remaining1 p y * p.interestRate1)

/-- The mutable `cumPrincipal` after `y` phase-1 iterations
(`cumPrincipal += -principalPaid`), starting from `0`. -/
def cumPrincipal1 (p : Params) : ℕ → ℚ
  | 0 => 0
  | y + 1 => cumPrincipal1 p y - (annuity1 p + remaining1 p y * p.interestRate1)

/-- `restAtFix`: the balance when phase 1 ends. -/
def restAtFix (p : Params) : ℚ := remaining1 p (firstPhaseYears p)

/-- `remainingYears = Math.max(loanYears - firstPhaseYears, 0)` (ℕ subtraction). -/
def remainingYears (p : Params) : ℕ := loanYears p - firstPhaseYears p

/-- `annuity2 = pmt(r2, remainingYears, restAtFix)` when `remainingYears > 0`;
when `remainingYears = 0` the JS variable stays `0`, and since division by zero
is `0` in `ℚ`, `pmt r 0 pv = 0` in both branches, so one definition covers both. -/
def annuity2 (p : Params) : ℚ := pmt (r2 p) (remainingYears p) (restAtFix p)

/-- The mutable `remaining` after `n` iterations of the phase-2 loop. -/
def remaining2 (p : Params) : ℕ → ℚ
  | 0 => restAtFix p
  | n + 1 => remaining2 p n + (annuity2 p + remaining2 p n * r2 p)

/-- The mutable `cumPrincipal` after `n` phase-2 iterations. -/
def cumPrincipal2 (p : Params) : ℕ → ℚ
  | 0 => cumPrincipal1 p (firstPhaseYears p)
  | n + 1 => cumPrincipal2 p n - (annuity2 p + remaining2 p n * r2 p)

/-- The value of the mutable `remaining` after the year-`y` iteration has run
(years beyond the loan term leave it untouched). -/
def remainingAfter (p : Params) (y : ℕ) : ℚ :=
  if y ≤ firstPhaseYears p then remaining1 p y
  else if y ≤ loanYears p then remaining2 p (y - firstPhaseYears p)
  else remaining2 p (remainingYears p)

/-- One row of `loanSchedule` (`{ restStart, interest, annuity, principal, cumPrincipal }`). -/
structure LoanYearEntry where
  restStart : ℚ
  interest : ℚ
  annuity : ℚ
  principal : ℚ
  cumPrincipal : ℚ
deriving DecidableEq

/-- The entry the three schedule loops store under key `y` (each key is written
exactly once: phase 1 for `y ≤ firstPhaseYears`, phase 2 for
`firstPhaseYears < y ≤ loanYears`, the zero-fill loop beyond). -/
def loanEntry (p : Params) (y : ℕ) : LoanYearEntry :=
  if y ≤ firstPhaseYears p then
    { restStart := remaining1 p (y - 1)
      interest := -(remaining1 p (y - 1)) * p.interestRate1
      annuity := annuity1 p
      principal := annuity1 p + remaining1 p (y - 1) * p.interestRate1
      cumPrincipal := cumPrincipal1 p y }
  else if y ≤ loanYears p then
    { restStart := remaining2 p (y - firstPhaseYears p - 1)
      interest := -(remaining2 p (y - firstPhaseYears p - 1)) * r2 p
      annuity := annuity2 p
      principal := annuity2 p + remaining2 p (y - firstPhaseYears p - 1) * r2 p
      cumPrincipal := cumPrincipal2 p (y - firstPhaseYears p) }
  else
    { restStart := 0, interest := 0, annuity := 0, principal := 0
      cumPrincipal := cumPrincipal2 p (remainingYears p) }

/-- The JS object `loanSchedule` as a partial map: keys `1..loanYears` are
written by the two amortization loops, keys `loanYears+1..horizon` by the
zero-fill loop; every other key reads as `undefined` (`none`). -/
def loanSchedule (p : Params) (horizon : ℕ) (y : ℕ) : Option LoanYearEntry :=
  if 1 ≤ y ∧ (y ≤ loanYears p ∨ y ≤ horizon) then some (loanEntry p y) else none

/-- `landVal` after the year-`y` update (`landVal *= 1 + landGrowthRate`),
starting from `landValue` (AC7). -/
def landValAt (p : Params) : ℕ → ℚ
  | 0 => p.landValue
  | y + 1 => landValAt p y * (1 + p.landGrowthRate)

/-- `buildingVal` after the year-`y` update
(`buildingVal *= 1 - buildingLossRate + constructionCostGrowth`),
starting from `buildingValue + fittingUp` (AD7). -/
def buildingValAt (p : Params) : ℕ → ℚ
  | 0 => p.buildingValue + p.fittingUp
  | y + 1 => buildingValAt p y * (1 - p.buildingLossRate + p.constructionCostGrowth)

/-- `propertyVal = buildingVal + landVal` at the end of year `y` (AE). -/
def propertyValAt (p : Params) (y : ℕ) : ℚ := buildingValAt p y + landValAt p y

/-- `grossRent = monthlyRent * 12 * Math.pow(1 + rentGrowth, year - 1)`. -/
def grossRent (p : Params) (y : ℕ) : ℚ :=
  p.monthlyRent * 12 * (1 + p.rentGrowth) ^ (y - 1)

/-- `netRent = grossRent * (1 - vacancyRate)`. -/
def netRent (p : Params) (y : ℕ) : ℚ := grossRent p y * (1 - p.vacancyRate)

/-- Maintenance of year `y`: year 1 uses the flat
`-(annualMaintenance + initialRepairs)`; later years
`-annualMaintenance * (1 + maintenanceGrowth)^year` (exponent is the year itself). -/
def maintenance (p : Params) (y : ℕ) : ℚ :=
  if y = 1 then -(p.annualMaintenance + p.initialRepairs)
  else -p.annualMaintenance * (1 + p.maintenanceGrowth) ^ y

/-- `afaAmount = -afaBasis * afaRate(afaArt, year, buildingLifetimeYears)`. -/
def afaAmount (p : Params) (y : ℕ) : ℚ :=
  -afaBasis p * afaRate p.afaArt y p.buildingLifetimeYears

/-- Taxable result `S_t`; the `disagio` is subtracted only in year 1. -/
def taxable (p : Params) (y : ℕ) : ℚ :=
  if y = 1 then
    netRent p y + maintenance p y + (loanEntry p y).interest + afaAmount p y - disagio p
  else netRent p y + maintenance p y + (loanEntry p y).interest + afaAmount p y

/-- Tax cashflow `U_t = -taxRate * taxable` (no clamping in this model). -/
def taxCash (p : Params) (y : ℕ) : ℚ := -p.taxRate * taxable p y

/-- Cashflow before tax `V_t = netRent + maintenance + interest + principal`. -/
def cashBeforeTax (p : Params) (y : ℕ) : ℚ :=
  netRent p y + maintenance p y + (loanEntry p y).interest + (loanEntry p y).principal

/-- Cashflow after tax `W_t = V_t + U_t`. -/
def cashAfterTax (p : Params) (y : ℕ) : ℚ := cashBeforeTax p y + taxCash p y

/-- Cumulative cashflow `X_t` after year `y` (`X7 = 0`). -/
def cumCF (p : Params) : ℕ → ℚ
  | 0 => 0
  | y + 1 => cumCF p y + cashAfterTax p (y + 1)

/-- One element of the `years` array pushed by the main loop. -/
structure YearRow where
  yearIndex : ℕ
  calendarYear : Option ℚ
  restDebtStart : ℚ
  interestPaid : ℚ
  principalPaid : ℚ
  grossRent : ℚ
  netRent : ℚ
  maintenance : ℚ
  depreciation : ℚ
  taxable : ℚ
  taxCash : ℚ
  cashBeforeTax : ℚ
  cashAfterTax : ℚ
  cumulativeCF : ℚ
  propertyValue : ℚ
  cumulativePrincipal : ℚ
  wealthFromCFAndLoan : ℚ
  equityPosition : ℚ

/-- The record pushed for year `y` (`years.push({...})`); inside the loop the
lookup `loanSchedule[year]` always succeeds (see `loanSchedule_lookup`), so the
fields are written with `loanEntry` directly.
`calendarYear` models `startYear ? startYear + year : null`. -/
def yearRow (p : Params) (y : ℕ) : YearRow :=
  { yearIndex := y
    calendarYear := if p.startYear ≠ 0 then some (p.startYear + y) else none
    restDebtStart := (loanEntry p y).restStart
    interestPaid := (loanEntry p y).interest
    principalPaid := (loanEntry p y).principal
    grossRent := grossRent p y
    netRent := netRent p y
    maintenance := maintenance p y
    depreciation := afaAmount p y
    taxable := taxable p y
    taxCash := taxCash p y
    cashBeforeTax := cashBeforeTax p y
    cashAfterTax := cashAfterTax p y
    cumulativeCF := cumCF p y
    propertyValue := propertyValAt p y
    cumulativePrincipal := (loanEntry p y).cumPrincipal
    wealthFromCFAndLoan := cumCF p y + (loanEntry p y).cumPrincipal
    equityPosition :=
      propertyValAt p y + (cumCF p y + (loanEntry p y).cumPrincipal) - totalInvest p }

/-- The `years` array built by `for (year = 1; year <= horizonYears; year++)`. -/
def yearsList (p : Params) (horizon : ℕ) : List YearRow :=
  (List.range horizon).map fun i => yearRow p (i + 1)

/-- `roiOnInvestment = totalInvest > 0 ? totalProfitOnInvestment / totalInvest : 0`. -/
def roiOnInvestmentOf (equityPositionEnd totalInvestV : ℚ) : ℚ :=
  if totalInvestV > 0 then equityPositionEnd / totalInvestV else 0

/-- `roeTotal = equityInvested > 0 ? totalProfitOnInvestment / equityInvested : 0`. -/
def roeTotalOf (equityPositionEnd equityInvested : ℚ) : ℚ :=
  if equityInvested > 0 then equityPositionEnd / equityInvested else 0

/-- `yearsCount = horizonYears > 0 ? horizonYears : 1`. -/
def yearsCountOf (horizonYears : ℕ) : ℕ :=
  if horizonYears > 0 then horizonYears else 1

/-- `roeAnnualized = roeTotal > -1 ? Math.pow(1 + roeTotal, 1 / yearsCount) - 1 : NaN`.
The real-exponent power is `Real.rpow`; the `NaN` sentinel is `none`. -/
noncomputable def roeAnnualizedOf (roeTotal : ℚ) (horizonYears : ℕ) : Option ℝ :=
  if roeTotal > -1 then
    some (Real.rpow (1 + (roeTotal : ℝ)) (1 / (yearsCountOf horizonYears : ℝ)) - 1)
  else none

/-- The `meta` block of the returned record. -/
structure MetaInfo where
  startYear : ℚ
  horizonYears : ℕ
  totalInvest : ℚ
  finanzbedarf : ℚ
  auszahlung : ℚ
  disagio : ℚ
  afaBasis : ℚ

/-- The `kpis` block of the returned record. -/
structure Kpis where
  equityInvested : ℚ
  equityPositionEnd : ℚ
  roiOnInvestment : ℚ
  roeTotal : ℚ
  roeAnnualized : Option ℝ
  propertyValueEnd : ℚ
  restDebtStartLastYear : ℚ
  cumulativeCF : ℚ

/-- The record returned by `simulateExcelModel`. -/
structure SimResult where
  meta : MetaInfo
  loanSchedule : ℕ → Option LoanYearEntry
  years : List YearRow
  kpis : Kpis

/-- `simulateExcelModel(params, options)`.  The KPI block reads
`last = years[years.length - 1]`; when the `years` array is empty that access
yields `undefined` and the subsequent `last.equityPosition` faults, modelled by
returning `none`. -/
noncomputable def simulateExcelModel (p : Params) (options : Option ℕ) : Option SimResult :=
  match (yearsList p (horizonOf p options)).getLast? with
  | none => none
  | some last =>
    some
      { meta :=
          { startYear := p.startYear
            horizonYears := horizonOf p options
            totalInvest := totalInvest p
            finanzbedarf := finanzbedarf p
            auszahlung := auszahlung p
            disagio := disagio p
            afaBasis := afaBasis p }
        loanSchedule := loanSchedule p (horizonOf p options)
        years := yearsList p (horizonOf p options)
        kpis :=
          { equityInvested := p.equity
            equityPositionEnd := last.equityPosition
            roiOnInvestment := roiOnInvestmentOf last.equityPosition (totalInvest p)
            roeTotal := roeTotalOf last.equityPosition p.equity
            roeAnnualized :=
              roeAnnualizedOf (roeTotalOf last.equityPosition p.equity)
                (horizonOf p options)
            propertyValueEnd := last.propertyValue
            restDebtStartLastYear := last.restDebtStart
            cumulativeCF := last.cumulativeCF } }

/-- The result record `simulateExcelModel` builds when the `years` array is
non-empty, with `last = yearRow p (horizonOf p options)`. -/
noncomputable def builtResult (p : Params) (options : Option ℕ) : SimResult :=
  { meta :=
      { startYear := p.startYear
        horizonYears := horizonOf p options
        totalInvest := totalInvest p
        finanzbedarf := finanzbedarf p
        auszahlung := auszahlung p
        disagio := disagio p
        afaBasis := afaBasis p }
    loanSchedule := loanSchedule p (horizonOf p options)
    years := yearsList p (horizonOf p options)
    kpis :=
      { equityInvested := p.equity
        equityPositionEnd := (yearRow p (horizonOf p options)).equityPosition
        roiOnInvestment :=
          roiOnInvestmentOf (yearRow p (horizonOf p options)).equityPosition
            (totalInvest p)
        roeTotal := roeTotalOf (yearRow p (horizonOf p options)).equityPosition p.equity
        roeAnnualized :=
          roeAnnualizedOf
            (roeTotalOf (yearRow p (horizonOf p options)).equityPosition p.equity)
            (horizonOf p options)
        propertyValueEnd := (yearRow p (horizonOf p options)).propertyValue
        restDebtStartLastYear := (yearRow p (horizonOf p options)).restDebtStart
        cumulativeCF := (yearRow p (horizonOf p options)).cumulativeCF } }

/-- Modelled from the spec (§4.1, claim C2): the amortization recurrence
`balance_k = balance_(k-1) * (1 + r) + payment`, starting from `pv`.  This is
the spec-side yardstick the annuity helper is compared against. -/
def balanceSeq (r payment pv : ℚ) : ℕ → ℚ
  | 0 => pv
  | k + 1 => balanceSeq r payment pv k * (1 + r) + payment

/-- Input record of `app.js`'s `runSimulation` (raw UI values; percentage
fields are divided by 100 inside the function). -/
structure SimpleInputs where
  purchasePrice : ℚ
  purchaseCostRate : ℚ
  appreciationRate : ℚ
  sellingCostRate : ℚ
  equity : ℚ
  interestRate : ℚ
  loanTermYears : ℕ
  investmentYears : ℕ
  monthlyRent : ℚ
  vacancyRate : ℚ
  maintenanceRate : ℚ
  otherCostsAnnual : ℚ
  taxRate : ℚ
  depreciationRate : ℚ

/-- `taxRate = inputs.taxRate / 100`. -/
def taxRateFrac (i : SimpleInputs) : ℚ := i.taxRate / 100

/-- `interestRate = inputs.interestRate / 100`. -/
def interestRateFrac (i : SimpleInputs) : ℚ := i.interestRate / 100

/-- `vacancyRate = inputs.vacancyRate / 100`. -/
def vacancyRateFrac (i : SimpleInputs) : ℚ := i.vacancyRate / 100

/-- `maintenanceRate = inputs.maintenanceRate / 100`. -/
def maintenanceRateFrac (i : SimpleInputs) : ℚ := i.maintenanceRate / 100

/-- `depreciationRate = inputs.depreciationRate / 100`. -/
def depreciationRateFrac (i : SimpleInputs) : ℚ := i.depreciationRate / 100

/-- `totalInitialCost = purchasePrice + purchasePrice * (purchaseCostRate/100)`. -/
def totalInitialCost (i : SimpleInputs) : ℚ :=
  i.purchasePrice + i.purchasePrice * (i.purchaseCostRate / 100)

/-- `loanAmount = Math.max(totalInitialCost - equity, 0)`. -/
def loanAmount (i : SimpleInputs) : ℚ := max (totalInitialCost i - i.equity) 0

/-- `annualDebtService`: annuity factor when `interestRate > 0 && loanTermYears > 0`,
linear `loanAmount / loanTermYears` when only `loanTermYears > 0`, else `0`. -/
def annualDebtService (i : SimpleInputs) : ℚ :=
  if interestRateFrac i > 0 ∧ 0 < i.loanTermYears then
    loanAmount i *
      (interestRateFrac i / (1 - (1 + interestRateFrac i) ^ (-(i.loanTermYears : ℤ))))
  else if 0 < i.loanTermYears then loanAmount i / i.loanTermYears
  else 0

/-- `annualGrossRent = monthlyRent * 12 * (1 - vacancyRate)`. -/
def annualGrossRent (i : SimpleInputs) : ℚ :=
  i.monthlyRent * 12 * (1 - vacancyRateFrac i)

/-- `annualMaintenance = annualGrossRent * maintenanceRate`. -/
def annualMaintenanceS (i : SimpleInputs) : ℚ :=
  annualGrossRent i * maintenanceRateFrac i

/-- `annualDepreciation = purchasePrice * depreciationRate`. -/
def annualDepreciation (i : SimpleInputs) : ℚ :=
  i.purchasePrice * depreciationRateFrac i

/-- `remainingDebt` after `y` loop iterations:
`remainingDebt = Math.max(remainingDebt - Math.max(annualDebtService - remainingDebt*r, 0), 0)`. -/
def remainingDebtAt (i : SimpleInputs) : ℕ → ℚ
  | 0 => loanAmount i
  | y + 1 =>
    max (remainingDebtAt i y -
      max (annualDebtService i - remainingDebtAt i y * interestRateFrac i) 0) 0

/-- `interestPayment = remainingDebt * interestRate` at the top of year `y`. -/
def interestPaymentAt (i : SimpleInputs) (y : ℕ) : ℚ :=
  remainingDebtAt i (y - 1) * interestRateFrac i

/-- `taxableIncome = annualGrossRent - annualMaintenance - otherCostsAnnual - interestPayment - annualDepreciation`. -/
def taxableIncomeAt (i : SimpleInputs) (y : ℕ) : ℚ :=
  annualGrossRent i - annualMaintenanceS i - i.otherCostsAnnual -
    interestPaymentAt i y - annualDepreciation i

/-- `taxes = Math.max(taxableIncome * taxRate, 0)` — the clamp of `app.js`. -/
def taxesAt (i : SimpleInputs) (y : ℕ) : ℚ :=
  max (taxableIncomeAt i y * taxRateFrac i) 0

/-- `cashflowAfterTax = annualGrossRent - annualMaintenance - otherCostsAnnual - interestPayment - taxes`. -/
def cashflowAfterTaxAt (i : SimpleInputs) (y : ℕ) : ℚ :=
  annualGrossRent i - annualMaintenanceS i - i.otherCostsAnnual -
    interestPaymentAt i y - taxesAt i y

/-- `years = Math.min(investmentYears, loanTermYears || investmentYears)`:
the number of iterations of `runSimulation`'s year loop. -/
def simulatedYears (i : SimpleInputs) : ℕ :=
  min i.investmentYears (if i.loanTermYears ≠ 0 then i.loanTermYears else i.investmentYears)

/-- A concrete parameter record used by the witnesses. -/
def pW : Params :=
  { startYear := 2024, buildingValue := 100, landValue := 50
    grEStRate := 0, maklerRate := 0, grundbuchRate := 0, notaryRate := 0
    companyCost := 0, fittingUp := 0, initialRepairs := 0
    buildingLossRate := 0, landGrowthRate := 0, constructionCostGrowth := 0
    annualMaintenance := 1, maintenanceGrowth := 0
    monthlyRent := 1, vacancyRate := 0, rentGrowth := 0
    taxRate := 0, equity := 30
    loanTermYears := 2, fixRateYears := 1
    discountRate := 0, interestRate1 := 0, interestRate2 := none
    afaArt := "Linear 2%", buildingLifetimeYears := 50 }

/-- A concrete parameter record with a positive tax rate and negative taxable
income in year 1, used by the C3 witness. -/
def pT : Params :=
  { startYear := 2024, buildingValue := 100, landValue := 50
    grEStRate := 0, maklerRate := 0, grundbuchRate := 0, notaryRate := 0
    companyCost := 0, fittingUp := 0, initialRepairs := 0
    buildingLossRate := 0, landGrowthRate := 0, constructionCostGrowth := 0
    annualMaintenance := 1, maintenanceGrowth := 0
    monthlyRent := 0, vacancyRate := 0, rentGrowth := 0
    taxRate := 1/2, equity := 30
    loanTermYears := 2, fixRateYears := 1
    discountRate := 0, interestRate1 := 0, interestRate2 := none
    afaArt := "Linear 2%", buildingLifetimeYears := 50 }

/-- Concrete `runSimulation` inputs on which `app.js` clamps the tax to zero:
no loan, no rent, 1000 of other costs, 2% depreciation on 100000, 50% tax. -/
def iC : SimpleInputs :=
  { purchasePrice := 100000, purchaseCostRate := 0, appreciationRate := 0
    sellingCostRate := 0, equity := 100000, interestRate := 0
    loanTermYears := 10, investmentYears := 10
    monthlyRent := 0, vacancyRate := 0, maintenanceRate := 0
    otherCostsAnnual := 1000, taxRate := 50, depreciationRate := 2 }

theorem balanceSeq_rate_zero (A pv : ℚ) (k : ℕ) : balanceSeq 0 A pv k = pv + k * A := by
  induction k with
  | zero => simp [balanceSeq]
  | succ k ih =>
    show balanceSeq 0 A pv k * (1 + 0) + A = _
    rw [ih]
    push_cast
    ring

theorem balanceSeq_closed (r A pv : ℚ) (hr : r ≠ 0) (k : ℕ) :
    balanceSeq r A pv k = (pv + A / r) * (1 + r) ^ k - A / r := by
  induction k with
  | zero => simp [balanceSeq]
  | succ k ih =>
    show balanceSeq r A pv k * (1 + r) + A = _
    rw [ih, pow_succ]
    field_simp
    ring

theorem amortize_formula (r pv : ℚ) (n : ℕ) (hr0 : r ≠ 0) (ha : (1 : ℚ) + r ≠ 0)
    (hq : (1 + r) ^ n ≠ 1) :
    balanceSeq r (-(pv * r) / (1 - (1 + r) ^ (-(n : ℤ)))) pv n = 0 := by
  rw [balanceSeq_closed _ _ _ hr0, zpow_neg, zpow_natCast]
  set q := (1 + r) ^ n with hqdef
  have hq0 : q ≠ 0 := pow_ne_zero _ ha
  have hq1 : q - 1 ≠ 0 := sub_ne_zero.mpr hq
  have hd : 1 - q⁻¹ ≠ 0 := by
    rw [sub_ne_zero]
    intro h
    exact hq (by rw [← inv_eq_one, ← h])
  have hdr : (1 - q⁻¹) * r ≠ 0 := mul_ne_zero hd hr0
  have hA : -(pv * r) / (1 - q⁻¹) / r = -pv * q / (q - 1) := by
    rw [div_div, div_eq_div_iff hdr hq1]
    field_simp
    ring
  rw [hA]
  field_simp
  ring

theorem pow_ne_one_of_ne_one {x : ℚ} {n : ℕ} (hx : 0 ≤ x) (hx1 : x ≠ 1) (hn : n ≠ 0) :
    x ^ n ≠ 1 := by
  rcases hx1.lt_or_lt with h | h
  · exact ne_of_lt (pow_lt_one₀ hx h hn)
  · exact ne_of_gt (one_lt_pow₀ h hn)

theorem pmt_amortizes (r pv : ℚ) (n : ℕ) (hn : 0 < n)
    (hr : r = 0 ∨ (1e-9 ≤ |r| ∧ -1 < r)) :
    balanceSeq r (pmt r n pv) pv n = 0 := by
  rcases hr with hr | ⟨hr1, hr2⟩
  · subst hr
    have hs : |(0 : ℚ)| < 1e-9 := by norm_num
    rw [pmt, if_pos hs, balanceSeq_rate_zero]
    have hn' : (n : ℚ) ≠ 0 := Nat.cast_ne_zero.mpr hn.ne'
    field_simp
    ring
  · have hr0 : r ≠ 0 := by
      intro h
      rw [h] at hr1
      norm_num at hr1
    have ha : (0 : ℚ) < 1 + r := by linarith
    have ha1 : (1 : ℚ) + r ≠ 1 := by
      intro h
      exact hr0 (by linarith)
    have hq : (1 + r) ^ n ≠ 1 := pow_ne_one_of_ne_one ha.le ha1 hn.ne'
    rw [pmt, if_neg (not_lt.mpr hr1)]
    exact amortize_formula r pv n hr0 ha.ne' hq

theorem pmt_neg (r pv : ℚ) (n : ℕ) (hn : 0 < n) (hpv : 0 < pv) (hr : -1 < r) :
    pmt r n pv < 0 := by
  by_cases hsmall : |r| < 1e-9
  · rw [pmt, if_pos hsmall]
    exact neg_lt_zero.mpr (div_pos hpv (by exact_mod_cast hn))
  · rw [pmt, if_neg hsmall]
    have hr1 : 1e-9 ≤ |r| := not_lt.mp hsmall
    have hr0 : r ≠ 0 := by
      intro h
      rw [h] at hr1
      norm_num at hr1
    have ha : (0 : ℚ) < 1 + r := by linarith
    rw [zpow_neg, zpow_natCast]
    rcases hr0.lt_or_lt with hneg | hpos
    · have hq0 : (0 : ℚ) < (1 + r) ^ n := pow_pos ha n
      have hq1 : (1 + r) ^ n < 1 := pow_lt_one₀ ha.le (by linarith) hn.ne'
      have hinv : 1 < ((1 + r) ^ n)⁻¹ := (one_lt_inv₀ hq0).2 hq1
      have hdenom : 1 - ((1 + r) ^ n)⁻¹ < 0 := by linarith
      have hnum : 0 < -(pv * r) := neg_pos.mpr (mul_neg_of_pos_of_neg hpv hneg)
      exact div_neg_of_pos_of_neg hnum hdenom
    · have h1 : (1 : ℚ) < 1 + r := by linarith
      have hq1 : (1 : ℚ) < (1 + r) ^ n := one_lt_pow₀ h1 hn.ne'
      have hinv : ((1 + r) ^ n)⁻¹ < 1 := inv_lt_one_of_one_lt₀ hq1
      have hdenom : 0 < 1 - ((1 + r) ^ n)⁻¹ := by linarith
      have hnum : -(pv * r) < 0 := neg_lt_zero.mpr (mul_pos hpv hpos)
      exact div_neg_of_neg_of_pos hnum hdenom

theorem remaining1_eq_balanceSeq (p : Params) (y : ℕ) :
    remaining1 p y = balanceSeq p.interestRate1 (annuity1 p) (auszahlung p) y := by
  induction y with
  | zero => rfl
  | succ y ih =>
    show remaining1 p y + (annuity1 p + remaining1 p y * p.interestRate1) = _
    rw [ih]
    show _ = balanceSeq p.interestRate1 (annuity1 p) (auszahlung p) y *
      (1 + p.interestRate1) + annuity1 p
    ring

theorem remaining2_eq_balanceSeq (p : Params) (n : ℕ) :
    remaining2 p n = balanceSeq (r2 p) (annuity2 p) (restAtFix p) n := by
  induction n with
  | zero => rfl
  | succ n ih =>
    show remaining2 p n + (annuity2 p + remaining2 p n * r2 p) = _
    rw [ih]
    show _ = balanceSeq (r2 p) (annuity2 p) (restAtFix p) n * (1 + r2 p) + annuity2 p
    ring

theorem cumPrincipal1_eq (p : Params) (y : ℕ) :
    cumPrincipal1 p y = auszahlung p - remaining1 p y := by
  induction y with
  | zero => simp [cumPrincipal1, remaining1]
  | succ y ih =>
    show cumPrincipal1 p y - (annuity1 p + remaining1 p y * p.interestRate1) = _
    rw [ih]
    show _ = auszahlung p -
      (remaining1 p y + (annuity1 p + remaining1 p y * p.interestRate1))
    ring

theorem cumPrincipal2_eq (p : Params) (n : ℕ) :
    cumPrincipal2 p n = auszahlung p - remaining2 p n := by
  induction n with
  | zero =>
    show cumPrincipal1 p (firstPhaseYears p) = auszahlung p - restAtFix p
    rw [cumPrincipal1_eq]
    rfl
  | succ n ih =>
    show cumPrincipal2 p n - (annuity2 p + remaining2 p n * r2 p) = _
    rw [ih]
    show _ = auszahlung p - (remaining2 p n + (annuity2 p + remaining2 p n * r2 p))
    ring

/-- Claim C1: in the schedule produced by `simulateExcelModel`, for every year
`k` from 1 to the horizon the recorded cumulative principal equals the
disbursed loan amount (`auszahlung`) minus the post-payment balance of year
`k`, across phase 1, phase 2 and the zero-filled years.  Arithmetic is exact
(`ℚ`), which subsumes the claim's floating-point tolerance clause. -/
theorem claim_C1_cumPrincipal (p : Params) (o : Option ℕ) (k : ℕ) (h1 : 1 ≤ k)
    (h2 : k ≤ horizonOf p o) :
    loanSchedule p (horizonOf p o) k = some (loanEntry p k) ∧
    (loanEntry p k).cumPrincipal = auszahlung p - remainingAfter p k := by
  constructor
  · rw [loanSchedule, if_pos ⟨h1, Or.inr h2⟩]
  · by_cases hA : k ≤ firstPhaseYears p
    · simp only [loanEntry, remainingAfter, if_pos hA]
      exact cumPrincipal1_eq p k
    · by_cases hB : k ≤ loanYears p
      · simp only [loanEntry, remainingAfter, if_neg hA, if_pos hB]
        exact cumPrincipal2_eq p _
      · simp only [loanEntry, remainingAfter, if_neg hA, if_neg hB]
        exact cumPrincipal2_eq p _

/-- Witness for C1 at the concrete parameters `pW`, year 1. -/
theorem claim_C1_cumPrincipal_witness :
    loanSchedule pW (horizonOf pW none) 1 = some (loanEntry pW 1) ∧
    (loanEntry pW 1).cumPrincipal = auszahlung pW - remainingAfter pW 1 :=
  claim_C1_cumPrincipal pW none 1 (by decide) (by decide)

/-- Claim C2 is false as stated: at `r = -2, n = 1, pv = 1` the returned
payment is `1 > 0` (not negative although `pv > 0`), and at
`r = 1e-10, n = 2, pv = 1` (the near-zero fallback branch) the recurrence
does not reach exactly zero. -/
theorem claim_C2_counterexample :
    (0 : ℚ) < 1 ∧ 0 < (1 : ℕ) ∧ ¬ pmt (-2) 1 1 < 0 ∧
    0 < (2 : ℕ) ∧ |(1e-10 : ℚ)| < 1e-9 ∧ balanceSeq 1e-10 (pmt 1e-10 2 1) 1 2 ≠ 0 := by
  have hs : |(1e-10 : ℚ)| < 1e-9 := by
    rw [abs_of_pos (by norm_num : (0:ℚ) < 1e-10)]
    norm_num
  refine ⟨by norm_num, by norm_num, ?_, by norm_num, hs, ?_⟩
  · norm_num [pmt, zpow_neg, zpow_natCast]
  · simp only [balanceSeq, pmt, if_pos hs]
    norm_num

/-- Claim C2, amended: `pmt` returns the two formulas exactly as claimed; the
payment is negative for `pv > 0` provided additionally `r > -1`; and the
recurrence `balance_k = balance_(k-1)(1+r) + payment` reaches exactly zero
after `n` periods when `r = 0` or when `|r| ≥ 1e-9` and `r > -1` (in the
near-zero fallback branch with `r ≠ 0` it only lands near zero). -/
theorem claim_C2_pmt_contract (r pv : ℚ) (n : ℕ) (hn : 0 < n) :
    (|r| < 1e-9 → pmt r n pv = -(pv / n)) ∧
    (1e-9 ≤ |r| → pmt r n pv = -(pv * r) / (1 - (1 + r) ^ (-(n : ℤ)))) ∧
    (0 < pv → -1 < r → pmt r n pv < 0) ∧
    (r = 0 ∨ (1e-9 ≤ |r| ∧ -1 < r) → balanceSeq r (pmt r n pv) pv n = 0) := by
  refine ⟨?_, ?_, ?_, ?_⟩
  · intro h
    rw [pmt, if_pos h]
  · intro h
    rw [pmt, if_neg (not_lt.mpr h)]
  · intro h1 h2
    exact pmt_neg r pv n hn h1 h2
  · intro h
    exact pmt_amortizes r pv n hn h

/-- Witness for the amended C2 at `r = 0, n = 2, pv = 1`. -/
theorem claim_C2_pmt_contract_witness :
    pmt 0 2 1 = -(1 / 2) ∧ pmt 0 2 1 < 0 ∧ balanceSeq 0 (pmt 0 2 1) 1 2 = 0 := by
  have h := claim_C2_pmt_contract 0 1 2 (by norm_num)
  refine ⟨?_, h.2.2.1 (by norm_num) (by norm_num), h.2.2.2 (Or.inl rfl)⟩
  rw [h.1 (by norm_num)]
  norm_num

/-- Claim C5: the depreciation resolver returns the spec table's rates — the
linear-2% scheme gives 0.02 up to year 50 and 0 afterwards, the
remaining-lifetime scheme (`"Linear x%"`) gives `1/L` up to year `L` (hence
exactly 0.02 for lifetime 50) and 0 afterwards, and every unrecognized
identifier falls back to 0.03 when it contains `"3"`, else 0.02 when it
contains `"2"`, else 0.02. -/
theorem claim_C5_afaRate (y L : ℕ) (s : String) (hs : s ∉ recognizedSchemes) :
    afaRate "Linear 2%" y L = (if y ≤ 50 then 0.02 else 0) ∧
    afaRate "Linear x%" y L = (if y ≤ L then 1 / (L : ℚ) else 0) ∧
    afaRate "Linear x%" y 50 = (if y ≤ 50 then 0.02 else 0) ∧
    afaRate s y L = (if strIncludes s "3" = true then 0.03
      else if strIncludes s "2" = true then 0.02 else 0.02) := by
  refine ⟨by simp [afaRate], by simp [afaRate], ?_, ?_⟩
  · by_cases h : y ≤ 50 <;> simp [afaRate, h] <;> norm_num
  · simp only [recognizedSchemes, List.mem_cons, List.not_mem_nil, not_or] at hs
    obtain ⟨h1, h2, h3, h4, h5, h6, h7, -⟩ := hs
    simp only [afaRate, if_neg h1, if_neg h2,
      if_neg (show ¬(s = "Linear 3 % p.a." ∨ s = "Linear 3%") by tauto),
      if_neg (show ¬(s = "Linear 2 % p.a." ∨ s = "Linear 2%") by tauto), if_neg h7]
    by_cases he : s = ""
    · subst he
      simp [show strIncludes "" "3" = false from rfl,
        show strIncludes "" "2" = false from rfl]
    · by_cases h3c : strIncludes s "3" = true
      · simp [h3c, he]
      · by_cases h2c : strIncludes s "2" = true
        · simp [h3c, h2c, he]
        · simp [h3c, h2c, he]

/-- Witness for C5 at year 51, lifetime 50, and the unrecognized label
`"AfA Sonderfall 3"`. -/
theorem claim_C5_afaRate_witness :
    "AfA Sonderfall 3" ∉ recognizedSchemes ∧
    afaRate "Linear 2%" 51 50 = (if 51 ≤ 50 then 0.02 else 0) ∧
    afaRate "Linear x%" 51 50 = (if 51 ≤ 50 then 1 / ((50 : ℕ) : ℚ) else 0) ∧
    afaRate "Linear x%" 51 50 = (if 51 ≤ 50 then 0.02 else 0) ∧
    afaRate "AfA Sonderfall 3" 51 50 =
      (if strIncludes "AfA Sonderfall 3" "3" = true then 0.03
        else if strIncludes "AfA Sonderfall 3" "2" = true then 0.02 else 0.02) :=
  ⟨by decide, claim_C5_afaRate 51 50 "AfA Sonderfall 3" (by decide)⟩

/-- Claim C6: the maintenance figure is the flat
`-(annualMaintenance + initialRepairs)` in year 1 and
`-annualMaintenance * (1 + maintenanceGrowth)^y` (with the absolute year `y`
as exponent) for every year `y ≥ 2`. -/
theorem claim_C6_maintenance (p : Params) (y : ℕ) (hy : 2 ≤ y) :
    maintenance p 1 = -(p.annualMaintenance + p.initialRepairs) ∧
    maintenance p y = -p.annualMaintenance * (1 + p.maintenanceGrowth) ^ y := by
  constructor
  · rfl
  · rw [maintenance, if_neg (by omega)]

/-- Witness for C6 at `pW`, year 3. -/
theorem claim_C6_maintenance_witness :
    maintenance pW 1 = -(pW.annualMaintenance + pW.initialRepairs) ∧
    maintenance pW 3 = -pW.annualMaintenance * (1 + pW.maintenanceGrowth) ^ 3 :=
  claim_C6_maintenance pW 3 (by norm_num)

/-- Claim C8: the KPI aggregator is total — ROI is `e / totalInvest` for a
positive total investment and exactly 0 otherwise, total ROE likewise over the
equity, and the annualized ROE is `(1 + roeTotal)^(1/years) - 1` when
`roeTotal > -1` and the NaN sentinel (`none`) otherwise, returned, not thrown. -/
theorem claim_C8_kpis (e t q : ℚ) (h : ℕ) :
    (0 < t → roiOnInvestmentOf e t = e / t) ∧
    (t ≤ 0 → roiOnInvestmentOf e t = 0) ∧
    (0 < q → roeTotalOf e q = e / q) ∧
    (q ≤ 0 → roeTotalOf e q = 0) ∧
    (roeTotalOf e q > -1 →
      roeAnnualizedOf (roeTotalOf e q) h =
        some (Real.rpow (1 + (roeTotalOf e q : ℝ)) (1 / (yearsCountOf h : ℝ)) - 1)) ∧
    (roeTotalOf e q ≤ -1 → roeAnnualizedOf (roeTotalOf e q) h = none) := by
  refine ⟨?_, ?_, ?_, ?_, ?_, ?_⟩
  · intro ht
    rw [roiOnInvestmentOf, if_pos ht]
  · intro ht
    rw [roiOnInvestmentOf, if_neg (not_lt.mpr ht)]
  · intro hq
    rw [roeTotalOf, if_pos hq]
  · intro hq
    rw [roeTotalOf, if_neg (not_lt.mpr hq)]
  · intro hrt
    rw [roeAnnualizedOf, if_pos hrt]
  · intro hrt
    rw [roeAnnualizedOf, if_neg (not_lt.mpr hrt)]

/-- Witness for C8: a non-positive total investment yields ROI 0, and a total
ROE of −3 (≤ −1) yields the NaN sentinel. -/
theorem claim_C8_kpis_witness :
    roiOnInvestmentOf 1 0 = 0 ∧ roeAnnualizedOf (roeTotalOf (-3) 1) 1 = none :=
  ⟨(claim_C8_kpis 1 0 0 1).2.1 (le_refl 0),
   (claim_C8_kpis (-3) 1 1 1).2.2.2.2.2 (by norm_num [roeTotalOf])⟩

/-- Claim C3 is false as stated for the simplified projector `runSimulation`
in `app.js`: on the inputs `iC`, year 1 is simulated, its taxable income is
negative and the tax rate positive, yet the tax amount is clamped to zero
(`Math.max(taxableIncome * taxRate, 0)`), so the tax cashflow `-taxes` is `0`
and not the positive saving `-taxRate * taxableIncome`. -/
theorem claim_C3_counterexample :
    1 ≤ simulatedYears iC ∧ taxableIncomeAt iC 1 < 0 ∧ 0 < taxRateFrac iC ∧
    taxesAt iC 1 = 0 ∧
    -taxesAt iC 1 ≠ -taxRateFrac iC * taxableIncomeAt iC 1 := by
  have hti : taxableIncomeAt iC 1 = -3000 := by
    norm_num [taxableIncomeAt, annualGrossRent, annualMaintenanceS, vacancyRateFrac,
      maintenanceRateFrac, interestPaymentAt, remainingDebtAt, loanAmount,
      totalInitialCost, interestRateFrac, annualDepreciation, depreciationRateFrac,
      max_def, iC]
  have htr : taxRateFrac iC = 1 / 2 := by norm_num [taxRateFrac, iC]
  refine ⟨by norm_num [simulatedYears, iC], by rw [hti]; norm_num, by rw [htr]; norm_num,
    ?_, ?_⟩
  · rw [taxesAt, hti, htr]
    norm_num [max_def]
  · rw [taxesAt, hti, htr]
    norm_num [max_def]

/-- Claim C3, amended: in `simulateExcelModel`'s projector the tax cashflow is
exactly `-taxRate * taxable` in every year and is strictly positive whenever
taxable income is negative and the tax rate positive (never clamped); in the
simplified `runSimulation` of `app.js`, however, the tax amount is clamped at
zero, so with a non-negative tax rate a year of non-positive taxable income
produces zero tax, not a tax saving. -/
theorem claim_C3_taxCash (p : Params) (y : ℕ) (i : SimpleInputs) (k : ℕ)
    (hneg : taxable p y < 0) (hpos : 0 < p.taxRate)
    (hneg2 : taxableIncomeAt i k ≤ 0) (hrate : 0 ≤ taxRateFrac i) :
    taxCash p y = -p.taxRate * taxable p y ∧
    0 < taxCash p y ∧
    taxesAt i k = max (taxableIncomeAt i k * taxRateFrac i) 0 ∧
    taxesAt i k = 0 := by
  refine ⟨rfl, ?_, rfl, ?_⟩
  · rw [taxCash]
    exact mul_pos_of_neg_of_neg (neg_neg_of_pos hpos) hneg
  · rw [taxesAt]
    exact max_eq_right (mul_nonpos_of_nonpos_of_nonneg hneg2 hrate)

/-- Witness for the amended C3 at `pT` (detailed model, year 1) and `iC`
(simplified model, year 1). -/
theorem claim_C3_taxCash_witness :
    taxCash pT 1 = -pT.taxRate * taxable pT 1 ∧
    0 < taxCash pT 1 ∧
    taxesAt iC 1 = max (taxableIncomeAt iC 1 * taxRateFrac iC) 0 ∧
    taxesAt iC 1 = 0 := by
  have hti : taxableIncomeAt iC 1 = -3000 := by
    norm_num [taxableIncomeAt, annualGrossRent, annualMaintenanceS, vacancyRateFrac,
      maintenanceRateFrac, interestPaymentAt, remainingDebtAt, loanAmount,
      totalInitialCost, interestRateFrac, annualDepreciation, depreciationRateFrac,
      max_def, iC]
  have hafa : afaRate "Linear 2%" 1 50 = 0.02 := by simp [afaRate]
  have htax : taxable pT 1 = -3 := by
    norm_num [taxable, netRent, grossRent, maintenance, loanEntry, firstPhaseYears,
      loanYears, remaining1, afaAmount, afaBasis, sideCostsVar, sideCostRate,
      purchasePrice, buildingShare, hafa, disagio, auszahlung, auszahlungsKurs,
      finanzbedarf, totalInvest, sideCostsTotal, abs_one, pT]
  exact claim_C3_taxCash pT 1 iC 1 (by rw [htax]; norm_num)
    (by norm_num [pT]) (by rw [hti]; norm_num) (by norm_num [taxRateFrac, iC])

theorem annuity1_zero_rate (p : Params) (hr1 : p.interestRate1 = 0) :
    annuity1 p = -(auszahlung p / loanYears p) := by
  rw [annuity1, hr1, pmt, if_pos (by norm_num : |(0:ℚ)| < 1e-9)]

theorem remaining1_zero_rate (p : Params) (hr1 : p.interestRate1 = 0) (y : ℕ) :
    remaining1 p y = auszahlung p - y * (auszahlung p / loanYears p) := by
  induction y with
  | zero => simp [remaining1]
  | succ y ih =>
    show remaining1 p y + (annuity1 p + remaining1 p y * p.interestRate1) = _
    rw [ih, annuity1_zero_rate p hr1, hr1]
    push_cast
    ring

theorem annuity2_zero_rate (p : Params) (hr1 : p.interestRate1 = 0) (hr2 : r2 p = 0)
    (hFN : firstPhaseYears p < loanYears p) (hN : 0 < loanYears p) :
    annuity2 p = -(auszahlung p / loanYears p) := by
  rw [annuity2, hr2, pmt, if_pos (by norm_num : |(0:ℚ)| < 1e-9), restAtFix,
    remaining1_zero_rate p hr1, remainingYears]
  have hc : ((loanYears p - firstPhaseYears p : ℕ) : ℚ) =
      (loanYears p : ℚ) - firstPhaseYears p := by
    push_cast [Nat.cast_sub hFN.le]
    ring
  rw [hc]
  have hN' : (loanYears p : ℚ) ≠ 0 := Nat.cast_ne_zero.mpr hN.ne'
  have hNF : (loanYears p : ℚ) - firstPhaseYears p ≠ 0 := by
    have h : (firstPhaseYears p : ℚ) < loanYears p := by exact_mod_cast hFN
    linarith
  field_simp
  ring

theorem remaining2_zero_rate (p : Params) (hr1 : p.interestRate1 = 0) (hr2 : r2 p = 0)
    (hFN : firstPhaseYears p < loanYears p) (hN : 0 < loanYears p) (n : ℕ) :
    remaining2 p n =
      auszahlung p - (firstPhaseYears p + n) * (auszahlung p / loanYears p) := by
  induction n with
  | zero =>
    show restAtFix p = _
    rw [restAtFix, remaining1_zero_rate p hr1]
    push_cast
    ring
  | succ n ih =>
    show remaining2 p n + (annuity2 p + remaining2 p n * r2 p) = _
    rw [ih, annuity2_zero_rate p hr1 hr2 hFN hN, hr2]
    push_cast
    ring

/-- Claim C4: with both interest rates zero (the second absent or zero) and a
positive loan term, the schedule is exactly linear — every year within the
term records principal `-(auszahlung / loanTerm)` and zero interest, and the
balance is exactly 0 at year `loanTerm`, wherever the fixed-rate boundary
falls. -/
theorem claim_C4_linearAmortization (p : Params) (hN : 0 < p.loanTermYears)
    (hr1 : p.interestRate1 = 0)
    (hr2 : p.interestRate2 = none ∨ p.interestRate2 = some 0)
    (y : ℕ) (h1 : 1 ≤ y) (h2 : y ≤ p.loanTermYears) :
    (loanEntry p y).principal = -(auszahlung p / p.loanTermYears) ∧
    (loanEntry p y).interest = 0 ∧
    remainingAfter p p.loanTermYears = 0 := by
  have hr2' : r2 p = 0 := by
    rcases hr2 with h | h <;> simp [r2, h, hr1]
  have hL : loanYears p = p.loanTermYears := rfl
  have hFle : firstPhaseYears p ≤ loanYears p := min_le_right _ _
  have hN' : (loanYears p : ℚ) ≠ 0 := Nat.cast_ne_zero.mpr (by omega)
  refine ⟨?_, ?_, ?_⟩
  · by_cases hA : y ≤ firstPhaseYears p
    · simp only [loanEntry, if_pos hA]
      rw [hr1, mul_zero, add_zero]
      exact annuity1_zero_rate p hr1
    · have hB : y ≤ loanYears p := h2
      simp only [loanEntry, if_neg hA, if_pos hB]
      rw [hr2', mul_zero, add_zero]
      exact annuity2_zero_rate p hr1 hr2' (by omega) (by omega)
  · by_cases hA : y ≤ firstPhaseYears p
    · simp only [loanEntry, if_pos hA]
      rw [hr1, mul_zero]
    · have hB : y ≤ loanYears p := h2
      simp only [loanEntry, if_neg hA, if_pos hB]
      rw [hr2', mul_zero]
  · by_cases hc : p.loanTermYears ≤ firstPhaseYears p
    · rw [remainingAfter, if_pos hc, remaining1_zero_rate p hr1, hL]
      field_simp
    · rw [remainingAfter, if_neg hc, if_pos hL.ge,
        remaining2_zero_rate p hr1 hr2' (by omega) (by omega)]
      have hsum : ((firstPhaseYears p : ℚ) + ((p.loanTermYears - firstPhaseYears p : ℕ) : ℚ)) =
          (loanYears p : ℚ) := by
        rw [Nat.cast_sub (by omega)]
        rw [hL]
        ring
      rw [hsum]
      field_simp

/-- Witness for C4 at `pW` (zero rates, term 2, fix boundary after year 1),
year 1. -/
theorem claim_C4_linearAmortization_witness :
    (loanEntry pW 1).principal = -(auszahlung pW / pW.loanTermYears) ∧
    (loanEntry pW 1).interest = 0 ∧
    remainingAfter pW pW.loanTermYears = 0 :=
  claim_C4_linearAmortization pW (by decide) rfl (Or.inl rfl) 1 (by decide) (by decide)

/-- Claim C10: with the horizon override absent, `simulateExcelModel` simulates
exactly `loanTermYears` years, and (for a zero rate or a genuine rate above −1
in each phase) the loan balance is exactly zero at year `loanTermYears`, so
the loan is fully amortized within the default window. -/
theorem claim_C10_defaultHorizon (p : Params) (hN : 0 < p.loanTermYears)
    (h1 : p.interestRate1 = 0 ∨ (1e-9 ≤ |p.interestRate1| ∧ -1 < p.interestRate1))
    (h2 : r2 p = 0 ∨ (1e-9 ≤ |r2 p| ∧ -1 < r2 p)) :
    horizonOf p none = p.loanTermYears ∧ remainingAfter p p.loanTermYears = 0 := by
  have hL : loanYears p = p.loanTermYears := rfl
  refine ⟨rfl, ?_⟩
  by_cases hc : p.loanTermYears ≤ firstPhaseYears p
  · rw [remainingAfter, if_pos hc, remaining1_eq_balanceSeq]
    exact pmt_amortizes p.interestRate1 (auszahlung p) p.loanTermYears hN h1
  · rw [remainingAfter, if_neg hc, if_pos hL.ge, remaining2_eq_balanceSeq]
    exact pmt_amortizes (r2 p) (restAtFix p) (p.loanTermYears - firstPhaseYears p)
      (by omega) h2

/-- Witness for C10 at `pW`. -/
theorem claim_C10_defaultHorizon_witness :
    horizonOf pW none = pW.loanTermYears ∧ remainingAfter pW pW.loanTermYears = 0 :=
  claim_C10_defaultHorizon pW (by decide) (Or.inl rfl) (Or.inl rfl)

theorem landValAt_closed (p : Params) (y : ℕ) :
    landValAt p y = p.landValue * (1 + p.landGrowthRate) ^ y := by
  induction y with
  | zero => simp [landValAt]
  | succ y ih =>
    show landValAt p y * (1 + p.landGrowthRate) = _
    rw [ih, pow_succ]
    ring

theorem buildingValAt_closed (p : Params) (y : ℕ) :
    buildingValAt p y = (p.buildingValue + p.fittingUp) *
      (1 - p.buildingLossRate + p.constructionCostGrowth) ^ y := by
  induction y with
  | zero => simp [buildingValAt]
  | succ y ih =>
    show buildingValAt p y * (1 - p.buildingLossRate + p.constructionCostGrowth) = _
    rw [ih, pow_succ]
    ring

theorem cumPrincipal_final (p : Params) :
    cumPrincipal2 p (remainingYears p) = (loanEntry p (loanYears p)).cumPrincipal := by
  by_cases hc : loanYears p ≤ firstPhaseYears p
  · have hF : firstPhaseYears p = loanYears p := le_antisymm (min_le_right _ _) hc
    simp only [loanEntry, if_pos hc]
    have hzero : remainingYears p = 0 := by
      rw [remainingYears]
      omega
    rw [hzero]
    show cumPrincipal1 p (firstPhaseYears p) = _
    rw [hF]
  · simp only [loanEntry, if_neg hc, if_pos (le_refl (loanYears p))]
    rfl

theorem yearsList_getLast (p : Params) (h : ℕ) (hh : 1 ≤ h) :
    (yearsList p h).getLast? = some (yearRow p h) := by
  obtain ⟨k, rfl⟩ : ∃ k, h = k + 1 := ⟨h - 1, by omega⟩
  rw [yearsList, List.range_succ, List.map_append, List.map_cons, List.map_nil]
  exact List.getLast?_concat _

theorem simulate_eq_builtResult (p : Params) (o : Option ℕ) (hh : 1 ≤ horizonOf p o) :
    simulateExcelModel p o = some (builtResult p o) := by
  unfold simulateExcelModel
  rw [yearsList_getLast p _ hh]
  rfl

/-- Claim C7: every year strictly beyond the loan term (up to the horizon) has
a schedule entry with zero interest, principal and payment whose cumulative
principal equals the year-`loanTerm` cumulative principal, while the gross
rent, maintenance, net rent and property value of that year are still given by
their growth formulas, none of which involves the loan schedule. -/
theorem claim_C7_beyondTerm (p : Params) (horizon y : ℕ) (hgt : p.loanTermYears < y)
    (hle : y ≤ horizon) :
    loanSchedule p horizon y = some
      { restStart := 0, interest := 0, annuity := 0, principal := 0
        cumPrincipal := (loanEntry p p.loanTermYears).cumPrincipal } ∧
    grossRent p y = p.monthlyRent * 12 * (1 + p.rentGrowth) ^ (y - 1) ∧
    netRent p y = grossRent p y * (1 - p.vacancyRate) ∧
    maintenance p y = (if y = 1 then -(p.annualMaintenance + p.initialRepairs)
      else -p.annualMaintenance * (1 + p.maintenanceGrowth) ^ y) ∧
    propertyValAt p y = (p.buildingValue + p.fittingUp) *
        (1 - p.buildingLossRate + p.constructionCostGrowth) ^ y +
      p.landValue * (1 + p.landGrowthRate) ^ y := by
  have hL : loanYears p = p.loanTermYears := rfl
  have hF : firstPhaseYears p ≤ loanYears p := min_le_right _ _
  refine ⟨?_, rfl, rfl, rfl, ?_⟩
  · have h1 : ¬ y ≤ firstPhaseYears p := by omega
    have h2 : ¬ y ≤ loanYears p := by omega
    have hE : loanEntry p y =
        { restStart := 0, interest := 0, annuity := 0, principal := 0
          cumPrincipal := cumPrincipal2 p (remainingYears p) } := by
      rw [loanEntry, if_neg h1, if_neg h2]
    rw [loanSchedule, if_pos ⟨by omega, Or.inr hle⟩, hE, cumPrincipal_final]
    rfl
  · rw [propertyValAt, landValAt_closed, buildingValAt_closed]

/-- Witness for C7 at `pW` (loan term 2), year 3, horizon 3. -/
theorem claim_C7_beyondTerm_witness :
    loanSchedule pW 3 3 = some
      { restStart := 0, interest := 0, annuity := 0, principal := 0
        cumPrincipal := (loanEntry pW pW.loanTermYears).cumPrincipal } ∧
    grossRent pW 3 = pW.monthlyRent * 12 * (1 + pW.rentGrowth) ^ (3 - 1) ∧
    netRent pW 3 = grossRent pW 3 * (1 - pW.vacancyRate) ∧
    maintenance pW 3 = (if 3 = 1 then -(pW.annualMaintenance + pW.initialRepairs)
      else -pW.annualMaintenance * (1 + pW.maintenanceGrowth) ^ 3) ∧
    propertyValAt pW 3 = (pW.buildingValue + pW.fittingUp) *
        (1 - pW.buildingLossRate + pW.constructionCostGrowth) ^ 3 +
      pW.landValue * (1 + pW.landGrowthRate) ^ 3 :=
  claim_C7_beyondTerm pW 3 3 (by decide) (by decide)

/-- Claim C9: under the precondition `horizonYears ≥ 1`, `simulateExcelModel`
returns normally with a fully populated result — the `years` list has exactly
`horizonYears` rows with `yearIndex = i + 1` at position `i`, the loan
schedule lookup succeeds for every year `1..horizonYears` (so the loop's
`loanSchedule[year]` access and the final `years[years.length - 1]` access are
safe), and the KPI block is computed from the last year row. -/
theorem claim_C9_totalResult (p : Params) (o : Option ℕ) (hh : 1 ≤ horizonOf p o) :
    ∃ res, simulateExcelModel p o = some res ∧
      res.years.length = horizonOf p o ∧
      (∀ i, ∀ hi : i < res.years.length, (res.years.get ⟨i, hi⟩).yearIndex = i + 1) ∧
      (∀ y, 1 ≤ y → y ≤ horizonOf p o →
        (loanSchedule p (horizonOf p o) y).isSome = true) ∧
      res.kpis.equityPositionEnd = (yearRow p (horizonOf p o)).equityPosition := by
  refine ⟨builtResult p o, simulate_eq_builtResult p o hh, ?_, ?_, ?_, rfl⟩
  · show (yearsList p (horizonOf p o)).length = horizonOf p o
    simp [yearsList]
  · intro i hi
    simp only [builtResult, yearsList] at hi ⊢
    simp [List.get_eq_getElem, yearRow]
  · intro y hy1 hy2
    rw [loanSchedule, if_pos ⟨hy1, Or.inr hy2⟩]
    rfl

/-- Witness for C9 at `pW` with the horizon override absent (horizon 2 ≥ 1). -/
theorem claim_C9_totalResult_witness :
    ∃ res, simulateExcelModel pW none = some res ∧
      res.years.length = horizonOf pW none ∧
      (∀ i, ∀ hi : i < res.years.length, (res.years.get ⟨i, hi⟩).yearIndex = i + 1) ∧
      (∀ y, 1 ≤ y → y ≤ horizonOf pW none →
        (loanSchedule pW (horizonOf pW none) y).isSome = true) ∧
      res.kpis.equityPositionEnd = (yearRow pW (horizonOf pW none)).equityPosition :=
  claim_C9_totalResult pW none (by decide)
